import Mathlib

/-!
Shallow embedding of the contact-form validation and submission logic of the
fintech landing page repository.

Two near-duplicate variants implement the form controller:
* `src/unnamed/part_000` — the `ContactForm` class (namespace `ContactForm`
  below): seven governed field slots, a declarative `validationRules` table,
  an explicit `FormState` enum, and an async `handleSubmit`/`submitForm`
  pipeline with a `finally` block.
* `src/app.js` (identical to `src/unnamed/part_001`) — a function-style
  controller (namespace `AppForm` below): three validated fields, an
  `isSubmitting` boolean, and a `handleFormSubmit` pipeline.

DOM side effects (class toggles, attributes, banner visibility/text) are
modelled as fields of explicit state records; `Math.random`, timers and the
promise resolution of the simulated API call are modelled as explicit
parameters/events.
-/

/-- JavaScript whitespace as it matters here (`String.prototype.trim` and the
regex class `\s`), restricted to the ASCII characters that can occur in these
forms: space, tab, line feed, carriage return, vertical tab, form feed. -/
def jsWhitespace (c : Char) : Bool :=
  c = ' ' || c = '\t' || c = '\n' || c = '\r' || c = '\x0b' || c = '\x0c'

/-- Model of `String.prototype.trim`: drop leading and trailing whitespace. -/
def jsTrim (s : String) : String :=
  ⟨((s.toList.dropWhile jsWhitespace).reverse.dropWhile jsWhitespace).reverse⟩

/-- JavaScript `a || b` on strings: the empty string is falsy. -/
def jsOrStr (a b : String) : String :=
  if a.isEmpty then b else a

/-- JavaScript `a || b` where `a` is a string-or-null value. -/
def jsOrOpt (a : Option String) (b : String) : String :=
  match a with
  | some s => jsOrStr s b
  | none => b

/-- A character allowed by the regex class `[^\s@]`. -/
def emailChar (c : Char) : Bool :=
  !jsWhitespace c && c ≠ '@'

/-- Split a character list at every occurrence of `sep`
(the list-level analogue of `String.split`). -/
def splitOnChar (cs : List Char) (sep : Char) : List (List Char) :=
  match cs with
  | [] => [[]]
  | c :: rest =>
    let r := splitOnChar rest sep
    if c = sep then
      [] :: r
    else
      match r with
      | [] => [[c]]
      | h :: t => (c :: h) :: t

/-- Whole-string test of the regex `^[^\s@]+@[^\s@]+\.[^\s@]+$` (the
`EMAIL_PATTERN` of both variants): exactly one `@`, a nonempty run of
non-space non-`@` characters on each side, and — since `[^\s@]` admits
dots — some `.` in the domain part with at least one character before it
and at least one after it. -/
def emailPatternTest (s : String) : Bool :=
  match splitOnChar s.toList '@' with
  | [lp, dom] =>
    !lp.isEmpty && lp.all emailChar &&
    !dom.isEmpty && dom.all emailChar &&
    ((dom.drop 1).dropLast.contains '.')
  | _ => false

/-- The apostrophe character (code point 39), admitted by the name pattern. -/
def apostropheChar : Char := Char.ofNat 39

/-- Whole-string test of the regex accepting one or more letters,
whitespace, apostrophes and hyphens (the `name` rule pattern). -/
def namePatternTest (s : String) : Bool :=
  !s.isEmpty && s.toList.all fun c =>
    (('a' ≤ c && c ≤ 'z') || ('A' ≤ c && c ≤ 'Z')) || jsWhitespace c ||
      c = apostropheChar || c = '-'

/-- Whole-string test of `/^[\d\s+()-]*$/` (the `phone` rule pattern). -/
def phonePatternTest (s : String) : Bool :=
  s.toList.all fun c =>
    c.isDigit || jsWhitespace c || c = '+' || c = '(' || c = ')' || c = '-'

namespace ContactForm

/-- The `FormState` constant object of `part_000` (the `validating` value is
declared by the source but never assigned). -/
inductive FormState
  | idle
  | validating
  | submitting
  | success
  | error
deriving DecidableEq, Repr

/-- The seven field slots looked up in the `ContactForm` constructor. -/
inductive FieldName
  | name
  | email
  | company
  | phone
  | inquiryType
  | message
  | consent
deriving DecidableEq, Repr

/-- A live field value: a text-like control carries a string, a checkbox
carries its checked flag (`field.type === "checkbox"`). -/
inductive FieldValue
  | text (s : String)
  | checkbox (b : Bool)
deriving DecidableEq, Repr

/-- Model of `field.type === "checkbox" ? field.checked : field.value.trim()`. -/
def FieldValue.read : FieldValue → FieldValue
  | .text s => .text (jsTrim s)
  | .checkbox b => .checkbox b

/-- JavaScript truthiness of a field value: the empty string and `false`
are falsy. -/
def FieldValue.truthy : FieldValue → Bool
  | .text s => !s.isEmpty
  | .checkbox b => b

/-- One entry of the `validationRules` table. The pattern is embedded as a
whole-string boolean test. -/
structure ValidationRule where
  required : Bool
  minLength : Option Nat := none
  maxLength : Option Nat := none
  pattern : Option (String → Bool) := none
  message : String

/-- Model of `rules.minLength && value.length < rules.minLength`: the check is
skipped when `minLength` is absent or `0` (both falsy in JS), and
`undefined < n` is false for a checkbox value. -/
def minFails (r : ValidationRule) (v : FieldValue) : Bool :=
  match r.minLength, v with
  | some n, .text s => decide (n ≠ 0 ∧ s.length < n)
  | _, _ => false

/-- Model of `rules.maxLength && value.length > rules.maxLength`, with the same
JS falsiness conventions as `minFails`. -/
def maxFails (r : ValidationRule) (v : FieldValue) : Bool :=
  match r.maxLength, v with
  | some n, .text s => decide (n ≠ 0 ∧ s.length > n)
  | _, _ => false

/-- Model of `rules.pattern && !rules.pattern.test(value)`. No checkbox-valued field
has a pattern rule in the source, so the checkbox branch is never failing. -/
def patFails (r : ValidationRule) (v : FieldValue) : Bool :=
  match r.pattern, v with
  | some p, .text s => !p s
  | _, _ => false

/-- The rule-evaluation core of `ContactForm.validateField` (lines 124–144
of `part_000`): the first failing check supplies the displayed message and
stops evaluation; length/pattern checks run only when the value is truthy. -/
def validateValue (r : ValidationRule) (v : FieldValue) : Option String :=
  if r.required && !v.truthy then
    some (jsOrStr r.message "This field is required")
  else if v.truthy && minFails r v then
    some (jsOrStr r.message
      ("Minimum " ++ toString (r.minLength.getD 0) ++ " characters required"))
  else if v.truthy && maxFails r v then
    some (jsOrStr r.message
      ("Maximum " ++ toString (r.maxLength.getD 0) ++ " characters allowed"))
  else if v.truthy && patFails r v then
    some r.message
  else
    none

/-- The `validationRules` table of `part_000`. The `company` slot has no
rule (it is not a key of the object). -/
def validationRules : FieldName → Option ValidationRule
  | .name => some
    { required := true, minLength := some 2, maxLength := some 100,
      pattern := some namePatternTest,
      message := "Please enter a valid name (2-100 characters, letters only)" }
  | .email => some
    { required := true, pattern := some emailPatternTest,
      message := "Please enter a valid email address" }
  | .company => none
  | .phone => some
    { required := false, pattern := some phonePatternTest,
      minLength := some 10,
      message := "Please enter a valid phone number (at least 10 digits)" }
  | .inquiryType => some
    { required := true, message := "Please select an inquiry type" }
  | .message => some
    { required := true, minLength := some 10, maxLength := some 1000,
      message := "Please enter a message (10-1000 characters)" }
  | .consent => some
    { required := true,
      message := "You must agree to the privacy policy and terms of service" }

/-- Per-field DOM presentation state: CSS classes, `aria-invalid`,
`disabled`, and the associated `#…-error` element's text and visibility. -/
structure FieldUI where
  clsError : Bool := false
  clsSuccess : Bool := false
  clsValidated : Bool := false
  ariaInvalid : Bool := false
  disabled : Bool := false
  errorText : String := ""
  errorShown : Bool := false
deriving DecidableEq, Repr

/-- The observable state owned by a `ContactForm` instance. -/
structure CFState where
  state : FormState
  vals : FieldName → FieldValue
  ui : FieldName → FieldUI
  submitDisabled : Bool
  submitAriaBusy : Bool
  loadingShown : Bool
  successShown : Bool
  errorBannerShown : Bool
  errorBannerText : String

/-- Default (reset) value of a field slot: empty string, unchecked box. -/
def defaultVal : FieldName → FieldValue
  | .consent => .checkbox false
  | _ => .text ""

/-- The initial state after construction and `setupAccessibility`. -/
def initState : CFState where
  state := .idle
  vals := defaultVal
  ui := fun _ => {}
  submitDisabled := false
  submitAriaBusy := false
  loadingShown := false
  successShown := false
  errorBannerShown := false
  errorBannerText := ""

/-- Model of `ContactForm.showFieldError`: add the `error` class, drop `success`,
set `aria-invalid`, and fill and show the field's error element. -/
def showFieldError (s : CFState) (f : FieldName) (msg : String) : CFState :=
  let u : FieldUI :=
    { s.ui f with clsError := true, clsSuccess := false, ariaInvalid := true,
                  errorText := msg, errorShown := true }
  { s with ui := Function.update s.ui f u }

/-- Model of `ContactForm.clearFieldError`: drop the `error` class, reset
`aria-invalid`, and empty and hide the error element. -/
def clearFieldError (s : CFState) (f : FieldName) : CFState :=
  let u : FieldUI :=
    { s.ui f with clsError := false, ariaInvalid := false,
                  errorText := "", errorShown := false }
  { s with ui := Function.update s.ui f u }

/-- Model of `ContactForm.markFieldValid`: drop `error`, add `success` and
`validated`, reset `aria-invalid`. -/
def markFieldValid (s : CFState) (f : FieldName) : CFState :=
  let u : FieldUI :=
    { s.ui f with clsError := false, clsSuccess := true, clsValidated := true,
                  ariaInvalid := false }
  { s with ui := Function.update s.ui f u }

/-- Model of `ContactForm.validateField`: returns `true` immediately when the field
has no rule; otherwise evaluates the rule chain on the read value, showing
the first failure's message or clearing/marking on success. -/
def validateField (s : CFState) (f : FieldName) : Bool × CFState :=
  match validationRules f with
  | none => (true, s)
  | some rules =>
    match validateValue rules (s.vals f).read with
    | some msg => (false, showFieldError s f msg)
    | none => (true, markFieldValid (clearFieldError s f) f)

/-- Model of `Object.keys(this.validationRules)` in insertion order. -/
def governedFields : List FieldName :=
  [.name, .email, .phone, .inquiryType, .message, .consent]

/-- Model of `ContactForm.validateAllFields`: validate every governed field in table
order, conjoining the results without short-circuiting. -/
def validateAllFields (s : CFState) : Bool × CFState :=
  governedFields.foldl
    (fun acc f =>
      let r := validateField acc.2 f
      (acc.1 && r.1, r.2))
    (true, s)

/-- The response object resolved by `ContactForm.simulateAPICall`. -/
structure APIResponse where
  success : Bool
  error : Option String
deriving DecidableEq, Repr

/-- Model of `ContactForm.simulateAPICall`, with the draw `Math.random() > 0.1`
supplied as a boolean: `success` flag plus an error message exactly when unsuccessful. -/
def simulateAPICall (randAboveTenth : Bool) : APIResponse where
  success := randAboveTenth
  error := if randAboveTenth then none else some "Server error. Please try again later."

/-- How the awaited `simulateAPICall` promise settles: it resolves with a
response, or (hypothetically — modelling the `catch` arm) rejects. -/
inductive Outcome
  | resolved (r : APIResponse)
  | rejected
deriving DecidableEq, Repr

/-- A state paired with the list of `setState` transitions it has logged
(`ContactForm.setState` records `oldState -> newState`). -/
abbrev TState := CFState × List (FormState × FormState)

/-- Model of `ContactForm.setState`, logging the transition. -/
def setStateTr (t : TState) (ns : FormState) : TState :=
  ({ t.1 with state := ns }, t.2 ++ [(t.1.state, ns)])

/-- Model of `ContactForm.disableForm`: disable every field and the submit button,
set `aria-busy`. -/
def disableForm (s : CFState) : CFState :=
  { s with ui := fun f => { s.ui f with disabled := true },
           submitDisabled := true, submitAriaBusy := true }

/-- Model of `ContactForm.enableForm`: re-enable every field and the submit button,
reset `aria-busy`. -/
def enableForm (s : CFState) : CFState :=
  { s with ui := fun f => { s.ui f with disabled := false },
           submitDisabled := false, submitAriaBusy := false }

/-- Model of `ContactForm.showLoadingState` / `hideLoadingState`. -/
def setLoadingShown (s : CFState) (b : Bool) : CFState :=
  { s with loadingShown := b }

/-- Model of `ContactForm.hideAllStateMessages`: hide the loading, success and error
containers. -/
def hideAllStateMessages (s : CFState) : CFState :=
  { s with loadingShown := false, successShown := false, errorBannerShown := false }

/-- Model of `ContactForm.showSuccessMessage` (the 8000 ms auto-dismiss timer is a
separate later event and not part of this synchronous step). -/
def showSuccessMessage (s : CFState) : CFState :=
  { s with successShown := true }

/-- Model of `ContactForm.showErrorMessage`: put the message into the error
container and show it. -/
def showErrorMessage (s : CFState) (msg : String) : CFState :=
  { s with errorBannerText := msg, errorBannerShown := true }

/-- Model of `ContactForm.resetForm`: `form.reset()`, strip the `error`/`success`/
`validated` classes and `aria-invalid` from every field, clear every
field error element, and `setState(IDLE)`. -/
def resetForm (t : TState) : TState :=
  let s := t.1
  let s1 : CFState :=
    { s with
      vals := defaultVal,
      ui := fun f =>
        { s.ui f with clsError := false, clsSuccess := false,
                      clsValidated := false, ariaInvalid := false,
                      errorText := "", errorShown := false } }
  setStateTr (s1, t.2) .idle

/-- The synchronous prefix of `ContactForm.submitForm`, up to the `await`
of `simulateAPICall`: `setState(SUBMITTING)`, `disableForm`,
`hideAllStateMessages`, `showLoadingState`. -/
def submitBegin (t : TState) : TState :=
  let t1 := setStateTr t .submitting
  (setLoadingShown (hideAllStateMessages (disableForm t1.1)) true, t1.2)

/-- The continuation of `ContactForm.submitForm` once the awaited call
settles: the `try`/`catch` branching on the response, then the `finally`
block (`hideLoadingState`, `enableForm`). -/
def submitResume (t : TState) (o : Outcome) : TState :=
  let t2 : TState :=
    match o with
    | .resolved r =>
      if r.success then
        resetForm (showSuccessMessage (setStateTr t .success).1, (setStateTr t .success).2)
      else
        let ta := setStateTr t .error
        (showErrorMessage ta.1 (jsOrOpt r.error "Submission failed. Please try again."), ta.2)
    | .rejected =>
      let ta := setStateTr t .error
      (showErrorMessage ta.1 "Network error. Please check your connection and try again.", ta.2)
  (enableForm (setLoadingShown t2.1 false), t2.2)

/-- Model of `ContactForm.submitForm` as a whole, the settling of the simulated call
supplied as a parameter. -/
def submitForm (t : TState) (o : Outcome) : TState :=
  submitResume (submitBegin t) o

/-- Result of one `ContactForm.handleSubmit` invocation: the final state,
the `setState` transitions logged, whether a simulated call was started,
and whether `validateAllFields` ran. -/
structure SubmitResult where
  st : CFState
  log : List (FormState × FormState)
  callStarted : Bool
  validationRan : Bool

/-- Model of `ContactForm.handleSubmit` (run to completion, the settling of the
simulated call supplied as a parameter): duplicate-submission guard, then
`validateAllFields`, then `submitForm`. -/
def handleSubmit (s : CFState) (o : Outcome) : SubmitResult :=
  if s.state = FormState.submitting then
    ⟨s, [], false, false⟩
  else
    let v := validateAllFields s
    if !v.1 then
      ⟨v.2, [], false, true⟩
    else
      let t := submitForm (v.2, []) o
      ⟨t.1, t.2, true, true⟩

/-- The event-loop view of a `ContactForm` instance: its state plus whether
a simulated call's timer is outstanding. -/
structure Machine where
  cf : CFState
  pending : Bool

/-- The user/timer events that can touch the controller. A `submit` while a
call is pending is the re-entrancy case; `apiSettle` is the outstanding
call's promise settling; `blurField` runs the blur listener
(`validateField`); `inputField` is the user editing a field (the browser
updates the value, then the input listener runs `clearFieldError`). -/
inductive Ev
  | submit
  | apiSettle (o : Outcome)
  | blurField (f : FieldName)
  | inputField (f : FieldName) (v : FieldValue)

/-- The input listener: the live value changes, then `clearFieldError`. -/
def inputEvent (s : CFState) (f : FieldName) (v : FieldValue) : CFState :=
  clearFieldError { s with vals := Function.update s.vals f v } f

/-- One event-loop step, returning the new machine and the `setState`
transitions logged during the step. -/
def stepM (m : Machine) (e : Ev) : Machine × List (FormState × FormState) :=
  match e with
  | .submit =>
    if m.cf.state = FormState.submitting then
      (m, [])
    else
      let v := validateAllFields m.cf
      if !v.1 then
        ({ m with cf := v.2 }, [])
      else
        let t := submitBegin (v.2, [])
        (⟨t.1, true⟩, t.2)
  | .apiSettle o =>
    if m.pending then
      let t := submitResume (m.cf, []) o
      (⟨t.1, false⟩, t.2)
    else
      (m, [])
  | .blurField f => ({ m with cf := (validateField m.cf f).2 }, [])
  | .inputField f v => ({ m with cf := inputEvent m.cf f v }, [])

/-- Run a list of events from a machine, accumulating logged transitions. -/
def runM (m : Machine) : List Ev → Machine × List (FormState × FormState)
  | [] => (m, [])
  | e :: es =>
    let r := stepM m e
    let r2 := runM r.1 es
    (r2.1, r.2 ++ r2.2)

/-- The machine at page load. -/
def initMachine : Machine := ⟨initState, false⟩

/-- Machines reachable from page load by event sequences. -/
inductive Reachable : Machine → Prop
  | init : Reachable initMachine
  | step (m : Machine) (e : Ev) : Reachable m → Reachable (stepM m e).1

/-- The callback scheduled by `ContactForm.debounceValidation` once it
fires: `if (field && field.value.trim()) this.validateField(fieldName)`.
Returns whether `validateField` was invoked. For a checkbox control the
DOM `value` attribute is the constant nonempty string `"on"`, so the guard
passes (the listener is only ever attached to the email text field). -/
def debounceCallback (s : CFState) (f : FieldName) : Bool × CFState :=
  match s.vals f with
  | .text v => if (jsTrim v).isEmpty then (false, s) else (true, (validateField s f).2)
  | .checkbox _ => (true, (validateField s f).2)

end ContactForm

/-- Model of `clearTimeout` / `setTimeout(…, 500)` debouncing, shared by both
variants: given the (strictly increasing) times of the input events on the
debounced control, the scheduled callbacks that actually execute. The
callback scheduled at input time `t` runs at `t + 500` unless a later input
arrives strictly before `t + 500` and cancels it; the last input's callback
always runs. -/
def firedCallbacks : List Nat → List Nat
  | [] => []
  | t :: rest =>
    match rest with
    | [] => [t + 500]
    | t' :: _ => (if t + 500 ≤ t' then [t + 500] else []) ++ firedCallbacks rest

namespace AppForm

/-- The three fields validated by the `app.js` variant. -/
inductive AField
  | name
  | email
  | message
deriving DecidableEq, Repr

/-- Per-field DOM state in the `app.js` variant: the `error` class,
`aria-invalid`, and the `.error-message` span (present iff an error is
shown). -/
structure AFieldUI where
  clsError : Bool := false
  ariaInvalid : Bool := false
  errMsg : Option String := none
deriving DecidableEq, Repr

/-- A `.form-message` banner created by `showSuccessMessage` /
`showErrorMessage`. -/
inductive ABanner
  | success
  | error (msg : String)
deriving DecidableEq, Repr

/-- The `role` attribute set on the banner element. -/
def ABanner.role : ABanner → String
  | .success => "status"
  | .error _ => "alert"

/-- The `aria-live` attribute set on the banner element. -/
def ABanner.ariaLive : ABanner → String
  | .success => "polite"
  | .error _ => "assertive"

/-- The observable state of the `app.js` controller: the `formState`
object, the live field values, per-field DOM state, the submit button, the
form's `submitting` class, and the banner area. -/
structure AState where
  isSubmitting : Bool
  isSuccess : Bool
  errors : AField → Option String
  vals : AField → String
  ui : AField → AFieldUI
  btnDisabled : Bool
  btnLoading : Bool
  btnText : String
  formSubmittingCls : Bool
  banner : Option ABanner

/-- Model of `removeFieldError`: drop the `error` class and `aria-invalid`, remove
the `.error-message` span. -/
def removeFieldError (s : AState) (f : AField) : AState :=
  { s with ui := Function.update s.ui f {} }

/-- Model of `showFieldError`: (after removing any existing error) add the `error`
class, set `aria-invalid`, insert an `.error-message` span. -/
def showFieldError (s : AState) (f : AField) (msg : String) : AState :=
  { s with ui := Function.update s.ui f ⟨true, true, some msg⟩ }

/-- The `switch` of `validateField` in `app.js`: validity and error message
for one field's trimmed value. -/
def fieldCheck (f : AField) (trimmed : String) : Bool × String :=
  match f with
  | .name =>
    if trimmed.isEmpty then (false, "Name is required")
    else if trimmed.length < 2 then (false, "Name must be at least 2 characters")
    else if trimmed.length > 100 then (false, "Name must not exceed 100 characters")
    else (true, "")
  | .email =>
    if trimmed.isEmpty then (false, "Email is required")
    else if !emailPatternTest trimmed then (false, "Please enter a valid email address")
    else (true, "")
  | .message =>
    if trimmed.isEmpty then (false, "Message is required")
    else if trimmed.length < 10 then (false, "Message must be at least 10 characters")
    else if trimmed.length > 1000 then (false, "Message must not exceed 1000 characters")
    else (true, "")

/-- Model of `validateField` of `app.js`: run the field's checks on the trimmed
live value, then update `formState.errors` and the field's DOM state. -/
def validateField (s : AState) (f : AField) : Bool × AState :=
  let c := fieldCheck f (jsTrim (s.vals f))
  if c.1 then
    (true, removeFieldError { s with errors := Function.update s.errors f none } f)
  else
    (false, showFieldError { s with errors := Function.update s.errors f (some c.2) } f c.2)

/-- Model of `validateForm` of `app.js`: validate name, email, message (all three
are evaluated), and conjoin. -/
def validateForm (s : AState) : Bool × AState :=
  let n := validateField s .name
  let e := validateField n.2 .email
  let m := validateField e.2 .message
  (n.1 && e.1 && m.1, m.2)

/-- Model of `setFormLoadingState`: toggles `formState.isSubmitting`, the submit
button's disabled flag, `loading` class and label, and the form's
`submitting` class. -/
def setFormLoadingState (s : AState) (isLoading : Bool) : AState :=
  { s with isSubmitting := isLoading,
           btnDisabled := isLoading,
           btnLoading := isLoading,
           btnText := if isLoading then "Sending..." else "Send Message",
           formSubmittingCls := isLoading }

/-- Model of `removeFormMessage`: remove every `.form-message` banner. -/
def removeFormMessage (s : AState) : AState :=
  { s with banner := none }

/-- Model of `showSuccessMessage`: sets `formState.isSuccess` and inserts the
success banner (`role="status"`, `aria-live="polite"`). -/
def showSuccessMessage (s : AState) : AState :=
  { (removeFormMessage s) with isSuccess := true, banner := some .success }

/-- Model of `showErrorMessage`: inserts the error banner (`role="alert"`,
`aria-live="assertive"`) carrying the given message. -/
def showErrorMessage (s : AState) (msg : String) : AState :=
  { removeFormMessage s with banner := some (.error msg) }

/-- Model of `resetForm` of `app.js` (scheduled 5000 ms after a success):
`form.reset()`, fresh `formState`, all field errors and banners removed. -/
def resetForm (s : AState) : AState :=
  { s with vals := fun _ => "",
           isSubmitting := false, isSuccess := false,
           errors := fun _ => none,
           ui := fun _ => {},
           banner := none }

/-- How the awaited `submitFormData` promise settles: it resolves, or it
rejects carrying the thrown error's `message` (`submitFormData` itself
always rejects with `new Error("Network error occurred")`). -/
inductive AOutcome
  | resolve
  | reject (msg : String)
deriving DecidableEq, Repr

/-- Result of one `handleFormSubmit` invocation in the `app.js` variant. -/
structure AResult where
  st : AState
  callStarted : Bool
  validationRan : Bool

/-- Model of `handleFormSubmit` of `app.js` (run to completion, the settling of the
simulated call supplied as a parameter). Note the order: banners are
removed and `validateForm` runs before the `isSubmitting` guard is
checked. -/
def handleFormSubmit (s : AState) (o : AOutcome) : AResult :=
  let s0 := removeFormMessage s
  let v := validateForm s0
  if !v.1 then
    ⟨v.2, false, true⟩
  else if v.2.isSubmitting then
    ⟨v.2, false, true⟩
  else
    let s2 := setFormLoadingState v.2 true
    let s3 :=
      match o with
      | .resolve => showSuccessMessage s2
      | .reject m => showErrorMessage s2 (jsOrStr m "Unable to submit form. Please try again.")
    ⟨setFormLoadingState s3 false, true, true⟩

/-- The debounced input handler of `app.js` (lines 48–53): once the 500 ms
timer fires, `validateField(input.name)` runs unconditionally — there is
no non-empty guard in this variant. -/
def debouncedCallback (s : AState) (f : AField) : Bool × AState :=
  (true, (validateField s f).2)

/-- Model of `submitFormData` of `app.js`, with the draw
`Math.random() < 0.9` supplied as a boolean: it resolves on success and
rejects with `new Error("Network error occurred")` otherwise. -/
def submitFormData (randBelowNine : Bool) : AOutcome :=
  if randBelowNine then .resolve else .reject "Network error occurred"

end AppForm

namespace ContactForm

/-- Validity of one field as a function of the live values alone (the
boolean that `validateField` returns, which reads only the field's own
value). -/
def fieldOK (vals : FieldName → FieldValue) (f : FieldName) : Bool :=
  match validationRules f with
  | none => true
  | some r => (validateValue r (vals f).read).isNone

/-- A value assignment satisfying every rule of the `part_000` table. -/
def validVals : FieldName → FieldValue
  | .name => .text "Ann"
  | .email => .text "ann@example.com"
  | .company => .text ""
  | .phone => .text ""
  | .inquiryType => .text "sales"
  | .message => .text "Hello, I want to know more."
  | .consent => .checkbox true

/-- The initial state with all fields filled in validly. -/
def validState : CFState := { initState with vals := validVals }

/-- A state whose submission state is `submitting` (a pending simulated
call). -/
def submittingState : CFState := { validState with state := .submitting }

/-- A value assignment with several offenders at once: an empty name and a
malformed email, the remaining fields valid. -/
def multiInvalidVals : FieldName → FieldValue
  | .name => .text ""
  | .email => .text "not-an-email"
  | .company => .text ""
  | .phone => .text ""
  | .inquiryType => .text "sales"
  | .message => .text "Hello, I want to know more."
  | .consent => .checkbox true

/-- The initial state with an empty name and a malformed email. -/
def multiInvalidState : CFState := { initState with vals := multiInvalidVals }

/-- Input events that fill the form validly. -/
def fillEvents : List Ev :=
  [ .inputField .name (.text "Ann"),
    .inputField .email (.text "ann@example.com"),
    .inputField .inquiryType (.text "sales"),
    .inputField .message (.text "Hello, I want to know more."),
    .inputField .consent (.checkbox true) ]

/-- Fill the form, submit, let the simulated call fail, submit again: the
third submission happens while the submission state is `error`. -/
def errorResubmitEvents : List Ev :=
  fillEvents ++
  [ .submit,
    .apiSettle (.resolved (simulateAPICall false)),
    .submit ]

/-- Fill the form, submit, let the simulated call succeed. -/
def successEvents : List Ev :=
  fillEvents ++ [ .submit, .apiSettle (.resolved (simulateAPICall true)) ]

/-- The transition list asserted by the specification: Idle→Submitting,
Submitting→Success, Submitting→Error, Success→Idle, Error→Idle. -/
def specTransitions : List (FormState × FormState) :=
  [ (.idle, .submitting), (.submitting, .success), (.submitting, .error),
    (.success, .idle), (.error, .idle) ]

/-- The transition list the code actually realizes: a resubmission from the
`error` state goes directly Error→Submitting (never through Idle), and
Error→Idle is never taken because `resetForm` only runs on the success
path. -/
def codeTransitions : List (FormState × FormState) :=
  [ (.idle, .submitting), (.error, .submitting), (.submitting, .success),
    (.submitting, .error), (.success, .idle) ]

/-- The four submission states named by the specification. -/
def specStates : List FormState := [.idle, .submitting, .success, .error]

/-- The event-loop invariant: while a simulated call is outstanding the
submission state reads `submitting`, and at rest it reads `idle` or
`error`. -/
def MachineInv (m : Machine) : Prop :=
  (m.pending = true → m.cf.state = .submitting)
  ∧ (m.pending = false → m.cf.state = .idle ∨ m.cf.state = .error)

end ContactForm

namespace AppForm

/-- Value assignment satisfying all three `app.js` checks. -/
def aValidVals : AField → String
  | .name => "Ann"
  | .email => "ann@example.com"
  | .message => "Hello, I want to know more."

/-- An idle `app.js` state with valid field values. -/
def aIdleValid : AState where
  isSubmitting := false
  isSuccess := false
  errors := fun _ => none
  vals := aValidVals
  ui := fun _ => {}
  btnDisabled := false
  btnLoading := false
  btnText := "Send Message"
  formSubmittingCls := false
  banner := none

/-- An `app.js` state with a pending submission and valid field values. -/
def aSubmittingValid : AState :=
  { aIdleValid with isSubmitting := true, btnDisabled := true,
                    btnLoading := true, btnText := "Sending...",
                    formSubmittingCls := true }

/-- An `app.js` state with a pending submission whose name field the user
has meanwhile emptied (fields are not disabled in this variant, so this is
reachable while the simulated call is outstanding). No error is shown yet. -/
def aSubmittingEmptyName : AState :=
  { aSubmittingValid with vals := Function.update aValidVals .name "" }

end AppForm

namespace ContactForm

theorem validateField_vals (s : CFState) (f : FieldName) :
    ((validateField s f).2).vals = s.vals := by
  unfold validateField
  split
  · rfl
  · split <;> rfl

theorem validateField_state (s : CFState) (f : FieldName) :
    ((validateField s f).2).state = s.state := by
  unfold validateField
  split
  · rfl
  · split <;> rfl

theorem validateField_fst (s : CFState) (f : FieldName) :
    (validateField s f).1 = fieldOK s.vals f := by
  unfold validateField fieldOK
  split
  · rfl
  · split <;> rename_i hv <;> simp [hv]

theorem validateField_ui_ne (s : CFState) (f g : FieldName) (h : g ≠ f) :
    ((validateField s f).2).ui g = s.ui g := by
  unfold validateField
  split
  · rfl
  · split
    · simp [showFieldError, Function.update_noteq h]
    · simp [markFieldValid, clearFieldError, Function.update_noteq h]

theorem validateField_errorShown (s : CFState) (f : FieldName)
    (hf : validationRules f ≠ none) :
    (((validateField s f).2).ui f).errorShown = !fieldOK s.vals f := by
  unfold validateField fieldOK
  split
  · rename_i heq
    exact absurd heq hf
  · split <;> rename_i hv <;> rw [hv]
    · simp [showFieldError]
    · simp [markFieldValid, clearFieldError]

end ContactForm

namespace ContactForm

theorem foldl_validate_spec (l : List FieldName) (b : Bool) (s : CFState) :
    (l.foldl (fun acc f =>
        let r := validateField acc.2 f
        (acc.1 && r.1, r.2)) (b, s)).1 = (b && l.all fun f => fieldOK s.vals f)
    ∧ ((l.foldl (fun acc f =>
        let r := validateField acc.2 f
        (acc.1 && r.1, r.2)) (b, s)).2).vals = s.vals
    ∧ ((l.foldl (fun acc f =>
        let r := validateField acc.2 f
        (acc.1 && r.1, r.2)) (b, s)).2).state = s.state
    ∧ (∀ f, f ∉ l → ((l.foldl (fun acc f =>
        let r := validateField acc.2 f
        (acc.1 && r.1, r.2)) (b, s)).2).ui f = s.ui f)
    ∧ (∀ f, f ∈ l → validationRules f ≠ none →
        (((l.foldl (fun acc f =>
          let r := validateField acc.2 f
          (acc.1 && r.1, r.2)) (b, s)).2).ui f).errorShown = !fieldOK s.vals f) := by
  induction l generalizing b s with
  | nil =>
    refine ⟨by simp, rfl, rfl, fun f _ => rfl, fun f hf => absurd hf (List.not_mem_nil f)⟩
  | cons g t ih =>
    have hstep : ((fun (acc : Bool × CFState) f =>
        let r := validateField acc.2 f
        (acc.1 && r.1, r.2)) (b, s) g)
        = (b && (validateField s g).1, (validateField s g).2) := rfl
    simp only [List.foldl_cons, hstep]
    obtain ⟨ih1, ih2, ih3, ih4, ih5⟩ :=
      ih (b && (validateField s g).1) ((validateField s g).2)
    refine ⟨?_, ?_, ?_, ?_, ?_⟩
    · rw [ih1, validateField_vals, validateField_fst, List.all_cons, Bool.and_assoc]
    · rw [ih2, validateField_vals]
    · rw [ih3, validateField_state]
    · intro f hf
      rw [ih4 f (fun hm => hf (List.mem_cons_of_mem g hm)),
        validateField_ui_ne s g f (fun he => hf (he ▸ List.mem_cons_self g t))]
    · intro f hf hr
      by_cases hft : f ∈ t
      · rw [ih5 f hft hr, validateField_vals]
      · have hfg : f = g := by
          rcases List.mem_cons.mp hf with h | h
          · exact h
          · exact absurd h hft
        subst hfg
        rw [ih4 f hft, validateField_errorShown s f hr]

end ContactForm

namespace ContactForm

theorem validateAllFields_eq_foldl (s : CFState) :
    validateAllFields s = governedFields.foldl (fun acc f =>
      let r := validateField acc.2 f
      (acc.1 && r.1, r.2)) (true, s) := rfl

theorem governed_has_rule (f : FieldName) (hf : f ∈ governedFields) :
    validationRules f ≠ none := by
  fin_cases hf <;> simp [validationRules]

end ContactForm

/-- C4: for every assignment of field values, `validateAllFields` returns
the conjunction of the individual `validateField` results over the governed
fields (in the fixed table order), every field is evaluated regardless of
earlier failures — each governed field's error indicator ends up shown
exactly when that field's own validation fails — and in particular on a
state with an empty name and a malformed email one call returns `false`
and both fields show their errors simultaneously. -/
theorem C4_validateAll_conjoins_all_fields :
    (∀ s : ContactForm.CFState,
       (ContactForm.validateAllFields s).1
         = ContactForm.governedFields.all (fun f => (ContactForm.validateField s f).1)
     ∧ (∀ f, f ∈ ContactForm.governedFields →
         (((ContactForm.validateAllFields s).2).ui f).errorShown
           = !(ContactForm.validateField s f).1))
  ∧ (ContactForm.validateAllFields ContactForm.multiInvalidState).1 = false
  ∧ (((ContactForm.validateAllFields ContactForm.multiInvalidState).2).ui
      ContactForm.FieldName.name).errorShown = true
  ∧ (((ContactForm.validateAllFields ContactForm.multiInvalidState).2).ui
      ContactForm.FieldName.email).errorShown = true := by
  refine ⟨fun s => ⟨?_, ?_⟩, by decide, by decide, by decide⟩
  · rw [ContactForm.validateAllFields_eq_foldl,
      (ContactForm.foldl_validate_spec ContactForm.governedFields true s).1,
      Bool.true_and]
    simp [ContactForm.validateField_fst]
  · intro f hf
    rw [ContactForm.validateAllFields_eq_foldl,
      (ContactForm.foldl_validate_spec ContactForm.governedFields true s).2.2.2.2
        f hf (ContactForm.governed_has_rule f hf),
      ContactForm.validateField_fst]

/-- Witness for C4 at a concrete state: the email field of the
multi-invalid state ends up showing an error because its own validation
fails. -/
theorem C4_witness :
    (((ContactForm.validateAllFields ContactForm.multiInvalidState).2).ui
      ContactForm.FieldName.email).errorShown
      = !(ContactForm.validateField ContactForm.multiInvalidState
          ContactForm.FieldName.email).1 :=
  (C4_validateAll_conjoins_all_fields.1 ContactForm.multiInvalidState).2
    ContactForm.FieldName.email (by decide)

/-- C5: `validateField` applies the rule checks in the order required,
minLength, maxLength, pattern; the first failing check supplies the
displayed message and ends evaluation (the outcome does not depend on the
later rules); a field with no rule defined always validates as `true`
(with the state untouched); and the call succeeds exactly when the
required check and — for a truthy value — all three remaining checks
pass. -/
theorem C5_rule_order_first_failure_wins :
    (∀ (s : ContactForm.CFState) (f : ContactForm.FieldName),
       ContactForm.validationRules f = none →
       ContactForm.validateField s f = (true, s))
  ∧ (∀ (s : ContactForm.CFState) (f : ContactForm.FieldName)
       (r : ContactForm.ValidationRule),
       ContactForm.validationRules f = some r →
       (ContactForm.validateField s f).1
         = (ContactForm.validateValue r ((s.vals f).read)).isNone)
  ∧ (∀ (r : ContactForm.ValidationRule) (v : ContactForm.FieldValue),
       r.required = true → v.truthy = false →
       ContactForm.validateValue r v
         = some (jsOrStr r.message "This field is required")
     ∧ (∀ mn mx p, ContactForm.validateValue
         { r with minLength := mn, maxLength := mx, pattern := p } v
           = ContactForm.validateValue r v))
  ∧ (∀ (r : ContactForm.ValidationRule) (v : ContactForm.FieldValue),
       v.truthy = true → ContactForm.minFails r v = true →
       ContactForm.validateValue r v
         = some (jsOrStr r.message
             ("Minimum " ++ toString (r.minLength.getD 0) ++ " characters required"))
     ∧ (∀ mx p, ContactForm.validateValue
         { r with maxLength := mx, pattern := p } v
           = ContactForm.validateValue r v))
  ∧ (∀ (r : ContactForm.ValidationRule) (v : ContactForm.FieldValue),
       v.truthy = true → ContactForm.minFails r v = false →
       ContactForm.maxFails r v = true →
       ContactForm.validateValue r v
         = some (jsOrStr r.message
             ("Maximum " ++ toString (r.maxLength.getD 0) ++ " characters allowed"))
     ∧ (∀ p, ContactForm.validateValue { r with pattern := p } v
           = ContactForm.validateValue r v))
  ∧ (∀ (r : ContactForm.ValidationRule) (v : ContactForm.FieldValue),
       v.truthy = true → ContactForm.minFails r v = false →
       ContactForm.maxFails r v = false → ContactForm.patFails r v = true →
       ContactForm.validateValue r v = some r.message)
  ∧ (∀ (r : ContactForm.ValidationRule) (v : ContactForm.FieldValue),
       ContactForm.validateValue r v = none ↔
         ((r.required = true → v.truthy = true)
          ∧ (v.truthy = true → ContactForm.minFails r v = false
              ∧ ContactForm.maxFails r v = false
              ∧ ContactForm.patFails r v = false))) := by
  refine ⟨?_, ?_, ?_, ?_, ?_, ?_, ?_⟩
  · intro s f hf
    unfold ContactForm.validateField
    rw [hf]
  · intro s f r hf
    rw [ContactForm.validateField_fst]
    unfold ContactForm.fieldOK
    rw [hf]
  · intro r v h1 h2
    constructor
    · simp [ContactForm.validateValue, h1, h2]
    · intro mn mx p
      simp [ContactForm.validateValue, h1, h2]
  · intro r v h1 h2
    constructor
    · simp [ContactForm.validateValue, h1, h2]
    · intro mx p
      have hm : ContactForm.minFails { r with maxLength := mx, pattern := p } v
          = ContactForm.minFails r v := rfl
      simp [ContactForm.validateValue, h1, h2, hm]
  · intro r v h1 h2 h3
    constructor
    · simp [ContactForm.validateValue, h1, h2, h3]
    · intro p
      have hm : ContactForm.minFails { r with pattern := p } v
          = ContactForm.minFails r v := rfl
      have hx : ContactForm.maxFails { r with pattern := p } v
          = ContactForm.maxFails r v := rfl
      simp [ContactForm.validateValue, h1, h2, h3, hm, hx]
  · intro r v h1 h2 h3 h4
    simp [ContactForm.validateValue, h1, h2, h3, h4]
  · intro r v
    unfold ContactForm.validateValue
    cases hr : r.required <;> cases ht : v.truthy <;>
      cases hm : ContactForm.minFails r v <;>
      cases hx : ContactForm.maxFails r v <;>
      cases hp : ContactForm.patFails r v <;> simp

/-- Witness for C5 at concrete inputs: the company field has no rule and
validates as `true` with the state untouched; a required empty name fails
with the name rule's message independently of its pattern. -/
theorem C5_witness :
    ContactForm.validateField ContactForm.initState ContactForm.FieldName.company
      = (true, ContactForm.initState)
  ∧ ContactForm.validateValue
      { required := true, minLength := some 2, maxLength := some 100,
        pattern := some namePatternTest,
        message := "Please enter a valid name (2-100 characters, letters only)" }
      (ContactForm.FieldValue.text "")
      = some "Please enter a valid name (2-100 characters, letters only)" :=
  ⟨C5_rule_order_first_failure_wins.1 ContactForm.initState
      ContactForm.FieldName.company rfl,
    (C5_rule_order_first_failure_wins.2.2.1 _ (ContactForm.FieldValue.text "")
      rfl rfl).1⟩

/-- C6: for every string value of the email field, `validateField` on the
email field returns `true` exactly when the trimmed value passes the email
pattern `^[^\s@]+@[^\s@]+\.[^\s@]+$`; in particular `"a@b.co"` is valid,
`"a@b"` is invalid, and `"  a@b.co  "` is valid because trimming happens
before the match. -/
theorem C6_email_validation_iff_pattern :
    (∀ (s : ContactForm.CFState) (v : String),
       (ContactForm.validateField
         { s with vals := Function.update s.vals ContactForm.FieldName.email
                            (ContactForm.FieldValue.text v) }
         ContactForm.FieldName.email).1
         = emailPatternTest (jsTrim v))
  ∧ emailPatternTest "a@b.co" = true
  ∧ emailPatternTest "a@b" = false
  ∧ jsTrim "  a@b.co  " = "a@b.co"
  ∧ (ContactForm.validateField
       { ContactForm.initState with
         vals := Function.update ContactForm.initState.vals
                   ContactForm.FieldName.email
                   (ContactForm.FieldValue.text "  a@b.co  ") }
       ContactForm.FieldName.email).1 = true := by
  refine ⟨?_, by decide, by decide, by decide, by decide⟩
  intro s v
  rw [ContactForm.validateField_fst]
  unfold ContactForm.fieldOK
  simp only [ContactForm.validationRules, Function.update_same,
    ContactForm.FieldValue.read]
  unfold ContactForm.validateValue
  cases he : (jsTrim v).isEmpty
  · cases hp : emailPatternTest (jsTrim v) <;>
      simp [ContactForm.FieldValue.truthy, he, ContactForm.minFails,
        ContactForm.maxFails, ContactForm.patFails, hp]
  · have hv : jsTrim v = "" := (String.isEmpty_iff (jsTrim v)).mp he
    rw [hv]
    simp [ContactForm.FieldValue.truthy]
    decide

/-- C10: a rule with `required = false` accepts every falsy (empty or
unchecked) value — the minLength, maxLength and pattern checks apply only
to truthy values — and in particular validating the phone field on a value
that trims to empty returns `true` and clears any prior error, even though
the phone rule declares both a `minLength` and a `pattern`. -/
theorem C10_optional_empty_field_valid :
    (∀ (r : ContactForm.ValidationRule) (v : ContactForm.FieldValue),
       r.required = false → v.truthy = false →
       ContactForm.validateValue r v = none)
  ∧ (∀ (s : ContactForm.CFState) (raw : String), (jsTrim raw).isEmpty = true →
       (ContactForm.validateField
         { s with vals := Function.update s.vals ContactForm.FieldName.phone
                            (ContactForm.FieldValue.text raw) }
         ContactForm.FieldName.phone).1 = true
     ∧ (((ContactForm.validateField
         { s with vals := Function.update s.vals ContactForm.FieldName.phone
                            (ContactForm.FieldValue.text raw) }
         ContactForm.FieldName.phone).2).ui ContactForm.FieldName.phone)
         = { (s.ui ContactForm.FieldName.phone) with
             clsError := false, clsSuccess := true, clsValidated := true,
             ariaInvalid := false, errorText := "", errorShown := false }) := by
  constructor
  · intro r v h1 h2
    simp [ContactForm.validateValue, h1, h2]
  · intro s raw hr
    have hval : ContactForm.validateValue
        { required := false, pattern := some phonePatternTest,
          minLength := some 10,
          message := "Please enter a valid phone number (at least 10 digits)" }
        (ContactForm.FieldValue.text (jsTrim raw)) = none := by
      simp [ContactForm.validateValue, ContactForm.FieldValue.truthy, hr]
    constructor
    · rw [ContactForm.validateField_fst]
      unfold ContactForm.fieldOK
      simp only [ContactForm.validationRules, Function.update_same,
        ContactForm.FieldValue.read, hval, Option.isNone_none]
    · unfold ContactForm.validateField
      simp only [ContactForm.validationRules, Function.update_same,
        ContactForm.FieldValue.read, hval]
      simp [ContactForm.markFieldValid, ContactForm.clearFieldError]

/-- Witness for C10: the phone rule accepts the empty value, and a
whitespace-only phone value validates as `true`. -/
theorem C10_witness :
    ContactForm.validateValue
      { required := false, pattern := some phonePatternTest, minLength := some 10,
        message := "Please enter a valid phone number (at least 10 digits)" }
      (ContactForm.FieldValue.text "") = none
  ∧ (ContactForm.validateField
       { ContactForm.initState with
         vals := Function.update ContactForm.initState.vals
                   ContactForm.FieldName.phone
                   (ContactForm.FieldValue.text "   ") }
       ContactForm.FieldName.phone).1 = true :=
  ⟨C10_optional_empty_field_valid.1 _ (ContactForm.FieldValue.text "") rfl rfl,
    (C10_optional_empty_field_valid.2 ContactForm.initState "   " (by decide)).1⟩

namespace AppForm

theorem validateField_isSubmitting (s : AState) (f : AField) :
    ((validateField s f).2).isSubmitting = s.isSubmitting := by
  unfold validateField
  dsimp only
  split <;> rfl

theorem validateForm_isSubmitting (s : AState) :
    ((validateForm s).2).isSubmitting = s.isSubmitting := by
  unfold validateForm
  dsimp only
  rw [validateField_isSubmitting, validateField_isSubmitting,
    validateField_isSubmitting]

end AppForm

/-- C1 (amended): when the submission state is Submitting, a further
`submit()` starts no new simulated call and leaves the submission state at
Submitting in both variants; in the `ContactForm` variant the handler
additionally returns immediately — no validation runs and the whole state
is untouched. (In the `app.js` variant validation does run before the
guard; see the counterexample.) -/
theorem C1_duplicate_submission_guard :
    (∀ (s : ContactForm.CFState) (o : ContactForm.Outcome),
       s.state = ContactForm.FormState.submitting →
       ContactForm.handleSubmit s o =
         { st := s, log := [], callStarted := false, validationRan := false })
  ∧ (∀ (s : AppForm.AState) (o : AppForm.AOutcome), s.isSubmitting = true →
       (AppForm.handleFormSubmit s o).callStarted = false
     ∧ (AppForm.handleFormSubmit s o).st.isSubmitting = true) := by
  constructor
  · intro s o h
    unfold ContactForm.handleSubmit
    rw [if_pos h]
  · intro s o h
    have hsub : ((AppForm.validateForm (AppForm.removeFormMessage s)).2).isSubmitting
        = true := by
      rw [AppForm.validateForm_isSubmitting]
      exact h
    unfold AppForm.handleFormSubmit
    cases hv : (AppForm.validateForm (AppForm.removeFormMessage s)).1 <;>
      simp [hv, hsub]

/-- Counterexample to C1 as stated: in the `app.js` variant, a submit event
arriving while a submission is pending (and the name field meanwhile
emptied) is not a no-op — `removeFormMessage` and `validateForm` run
before the `isSubmitting` guard is reached, so validation runs and the
name field's error indicator flips from hidden to shown. -/
theorem C1_counterexample :
    AppForm.aSubmittingEmptyName.isSubmitting = true
  ∧ (AppForm.aSubmittingEmptyName.ui AppForm.AField.name).clsError = false
  ∧ (AppForm.handleFormSubmit AppForm.aSubmittingEmptyName
      (AppForm.AOutcome.reject "Network error occurred")).validationRan = true
  ∧ ((AppForm.handleFormSubmit AppForm.aSubmittingEmptyName
      (AppForm.AOutcome.reject "Network error occurred")).st.ui
        AppForm.AField.name).clsError = true
  ∧ ((AppForm.handleFormSubmit AppForm.aSubmittingEmptyName
      (AppForm.AOutcome.reject "Network error occurred")).st.errors
        AppForm.AField.name) = some "Name is required"
  ∧ (AppForm.handleFormSubmit AppForm.aSubmittingEmptyName
      (AppForm.AOutcome.reject "Network error occurred")).callStarted = false := by
  decide

/-- Witness for C1: the guard applied at concrete submitting states of both
variants. -/
theorem C1_witness :
    ContactForm.handleSubmit ContactForm.submittingState
      (ContactForm.Outcome.resolved (ContactForm.simulateAPICall true))
      = { st := ContactForm.submittingState, log := [],
          callStarted := false, validationRan := false }
  ∧ (AppForm.handleFormSubmit AppForm.aSubmittingValid AppForm.AOutcome.resolve).callStarted
      = false :=
  ⟨C1_duplicate_submission_guard.1 ContactForm.submittingState
      (ContactForm.Outcome.resolved (ContactForm.simulateAPICall true)) rfl,
    (C1_duplicate_submission_guard.2 AppForm.aSubmittingValid
      AppForm.AOutcome.resolve rfl).1⟩

/-- C2: on every path through the submission pipeline — resolved success,
resolved failure, or rejection — the `finally` block re-enables all
governed fields and the submit control and hides the loading indicator; in
the `app.js` variant every invocation that entered the Submitting state
likewise ends with the submit control enabled and the loading state
removed. -/
theorem C2_interactive_ui_always_restored :
    (∀ (s : ContactForm.CFState) (o : ContactForm.Outcome),
       (∀ f, (((ContactForm.submitForm (s, []) o).1).ui f).disabled = false)
     ∧ ((ContactForm.submitForm (s, []) o).1).submitDisabled = false
     ∧ ((ContactForm.submitForm (s, []) o).1).submitAriaBusy = false
     ∧ ((ContactForm.submitForm (s, []) o).1).loadingShown = false)
  ∧ (∀ (s : AppForm.AState) (o : AppForm.AOutcome),
       (AppForm.handleFormSubmit s o).callStarted = true →
       (AppForm.handleFormSubmit s o).st.isSubmitting = false
     ∧ (AppForm.handleFormSubmit s o).st.btnDisabled = false
     ∧ (AppForm.handleFormSubmit s o).st.btnLoading = false
     ∧ (AppForm.handleFormSubmit s o).st.formSubmittingCls = false) := by
  constructor
  · intro s o
    rcases o with ⟨succ, err⟩ | _
    · cases succ
      · exact ⟨fun f => rfl, rfl, rfl, rfl⟩
      · exact ⟨fun f => rfl, rfl, rfl, rfl⟩
    · exact ⟨fun f => rfl, rfl, rfl, rfl⟩
  · intro s o h
    unfold AppForm.handleFormSubmit at h ⊢
    dsimp only at h ⊢
    cases hv : (AppForm.validateForm (AppForm.removeFormMessage s)).1
    · simp [hv] at h
    · cases hs : ((AppForm.validateForm (AppForm.removeFormMessage s)).2).isSubmitting
      · cases o <;> simp [hv, hs] <;> exact ⟨rfl, rfl, rfl, rfl⟩
      · simp [hv, hs] at h

/-- Witness for C2: the restoration applied after a concrete successful
submission in the `app.js` variant. -/
theorem C2_witness :
    (AppForm.handleFormSubmit AppForm.aIdleValid AppForm.AOutcome.resolve).st.isSubmitting
      = false :=
  ((C2_interactive_ui_always_restored.2 AppForm.aIdleValid AppForm.AOutcome.resolve)
    (by decide)).1

/-- C8: after every resolved failure of the simulated call, all governed
fields and the submit control are re-enabled, the error banner is shown,
and its text is the server-supplied message when the response carries a
nonempty one and the generic fallback string otherwise; the failure
response actually produced by `simulateAPICall` always carries the fixed
server message, which is therefore what is displayed. -/
theorem C8_failure_reenables_and_shows_server_message :
    (∀ (s : ContactForm.CFState) (r : ContactForm.APIResponse), r.success = false →
       (∀ f, (((ContactForm.submitForm (s, [])
         (ContactForm.Outcome.resolved r)).1).ui f).disabled = false)
     ∧ ((ContactForm.submitForm (s, [])
         (ContactForm.Outcome.resolved r)).1).submitDisabled = false
     ∧ ((ContactForm.submitForm (s, [])
         (ContactForm.Outcome.resolved r)).1).errorBannerShown = true
     ∧ ((ContactForm.submitForm (s, [])
         (ContactForm.Outcome.resolved r)).1).errorBannerText
         = jsOrOpt r.error "Submission failed. Please try again."
     ∧ (∀ m, r.error = some m → m ≠ "" →
         ((ContactForm.submitForm (s, [])
           (ContactForm.Outcome.resolved r)).1).errorBannerText = m)
     ∧ (r.error = none →
         ((ContactForm.submitForm (s, [])
           (ContactForm.Outcome.resolved r)).1).errorBannerText
           = "Submission failed. Please try again."))
  ∧ (∀ s : ContactForm.CFState,
       ((ContactForm.submitForm (s, [])
         (ContactForm.Outcome.resolved (ContactForm.simulateAPICall false))).1).errorBannerText
         = "Server error. Please try again later.") := by
  constructor
  · intro s r h
    rcases r with ⟨succ, err⟩
    cases succ
    · refine ⟨fun f => rfl, rfl, rfl, rfl, ?_, ?_⟩
      · intro m hm hne
        dsimp only at hm
        have hie : m.isEmpty = false := by
          cases hi : m.isEmpty
          · rfl
          · exact absurd ((String.isEmpty_iff m).mp hi) hne
        show jsOrOpt err "Submission failed. Please try again." = m
        rw [hm]
        simp [jsOrOpt, jsOrStr, hie]
      · intro hm
        dsimp only at hm
        show jsOrOpt err "Submission failed. Please try again."
          = "Submission failed. Please try again."
        rw [hm]
        rfl
    · exact absurd h (by simp)
  · intro s
    rfl

/-- Witness for C8: a concrete failing response with the server's message. -/
theorem C8_witness :
    ((ContactForm.submitForm (ContactForm.validState, [])
      (ContactForm.Outcome.resolved
        { success := false, error := some "Server error. Please try again later." })).1).errorBannerText
      = "Server error. Please try again later." :=
  ((C8_failure_reenables_and_shows_server_message.1 ContactForm.validState
      { success := false, error := some "Server error. Please try again later." }
      rfl).2.2.2.2.1) "Server error. Please try again later." rfl (by decide)

/-- C7: after every resolved success of the simulated call, the
`ContactForm` pipeline ends with the submission state at Idle, every
governed field reset to its empty default, and every field's error
indicator and validity classes cleared; in the `app.js` variant the
success banner carries `role="status"` and `aria-live="polite"`, and its
(delayed) reset likewise returns the state to idle with all fields empty. -/
theorem C7_success_ends_idle_and_clean :
    (∀ s : ContactForm.CFState,
       ((ContactForm.submitForm (s, [])
         (ContactForm.Outcome.resolved (ContactForm.simulateAPICall true))).1).state
         = ContactForm.FormState.idle
     ∧ (∀ f, ((ContactForm.submitForm (s, [])
         (ContactForm.Outcome.resolved (ContactForm.simulateAPICall true))).1).vals f
         = ContactForm.defaultVal f)
     ∧ (∀ f, ((ContactForm.submitForm (s, [])
         (ContactForm.Outcome.resolved (ContactForm.simulateAPICall true))).1).ui f
         = ({} : ContactForm.FieldUI))
     ∧ (ContactForm.submitForm (s, [])
         (ContactForm.Outcome.resolved (ContactForm.simulateAPICall true))).2
         = [(s.state, ContactForm.FormState.submitting),
            (ContactForm.FormState.submitting, ContactForm.FormState.success),
            (ContactForm.FormState.success, ContactForm.FormState.idle)])
  ∧ (∀ s : AppForm.AState,
       (AppForm.handleFormSubmit s AppForm.AOutcome.resolve).callStarted = true →
       (AppForm.handleFormSubmit s AppForm.AOutcome.resolve).st.banner
         = some AppForm.ABanner.success)
  ∧ AppForm.ABanner.success.role = "status"
  ∧ AppForm.ABanner.success.ariaLive = "polite"
  ∧ (∀ s : AppForm.AState,
       (AppForm.resetForm s).isSubmitting = false
     ∧ (∀ f, (AppForm.resetForm s).vals f = ""
          ∧ (AppForm.resetForm s).errors f = none
          ∧ (AppForm.resetForm s).ui f = ({} : AppForm.AFieldUI))
     ∧ (AppForm.resetForm s).banner = none) := by
  refine ⟨fun s => ⟨rfl, fun f => ?_, fun f => rfl, rfl⟩, ?_, rfl, rfl,
    fun s => ⟨rfl, fun f => ⟨rfl, rfl, rfl⟩, rfl⟩⟩
  · cases f <;> rfl
  · intro s h
    unfold AppForm.handleFormSubmit at h ⊢
    dsimp only at h ⊢
    cases hv : (AppForm.validateForm (AppForm.removeFormMessage s)).1
    · simp [hv] at h
    · cases hs : ((AppForm.validateForm (AppForm.removeFormMessage s)).2).isSubmitting
      · simp [hv, hs]
        rfl
      · simp [hv, hs] at h

/-- Witness for C7: the success banner appears after a concrete successful
submission from a valid idle state. -/
theorem C7_witness :
    (AppForm.handleFormSubmit AppForm.aIdleValid AppForm.AOutcome.resolve).st.banner
      = some AppForm.ABanner.success :=
  C7_success_ends_idle_and_clean.2.1 AppForm.aIdleValid (by decide)

/-- C9 (amended): a burst of input events on the debounced field, each
arriving strictly within 500 ms of the previous one, results in exactly
one executed timer callback, scheduled 500 ms after the last input (so it
runs only once input activity has stopped for the debounce interval). In
the `ContactForm` variant the callback revalidates only when the field's
trimmed value is nonempty (and otherwise leaves the state untouched); in
the `app.js` variant the debounced handler revalidates unconditionally.
(The claim's nonempty guard fails for `app.js`; see the counterexample.) -/
theorem C9_debounce_single_validation :
    (∀ (t : Nat) (rest : List Nat),
       List.Chain' (fun a b => a < b ∧ b < a + 500) (t :: rest) →
       firedCallbacks (t :: rest)
         = [(t :: rest).getLast (List.cons_ne_nil t rest) + 500])
  ∧ (∀ (s : ContactForm.CFState) (v : String),
       s.vals ContactForm.FieldName.email = ContactForm.FieldValue.text v →
       (ContactForm.debounceCallback s ContactForm.FieldName.email).1
         = !(jsTrim v).isEmpty
     ∧ ((jsTrim v).isEmpty = true →
         (ContactForm.debounceCallback s ContactForm.FieldName.email).2 = s))
  ∧ (∀ (s : AppForm.AState) (f : AppForm.AField),
       (AppForm.debouncedCallback s f).1 = true
     ∧ (AppForm.debouncedCallback s f).2 = (AppForm.validateField s f).2) := by
  refine ⟨?_, ?_, fun s f => ⟨rfl, rfl⟩⟩
  · intro t rest
    induction rest generalizing t with
    | nil => intro _; rfl
    | cons t2 rest2 ih =>
      intro hc
      obtain ⟨⟨_, hlt⟩, hc2⟩ := List.chain'_cons.mp hc
      have hnot : ¬ (t + 500 ≤ t2) := by omega
      show (if t + 500 ≤ t2 then [t + 500] else []) ++ firedCallbacks (t2 :: rest2)
        = [(t :: t2 :: rest2).getLast (List.cons_ne_nil t (t2 :: rest2)) + 500]
      rw [if_neg hnot, List.nil_append, ih t2 hc2,
        List.getLast_cons (List.cons_ne_nil t2 rest2)]
  · intro s v hv
    unfold ContactForm.debounceCallback
    rw [hv]
    constructor
    · cases he : (jsTrim v).isEmpty <;> simp [he]
    · intro he
      simp [he]

/-- Counterexample to C9 as stated: in the `app.js` variant the debounced
revalidation also runs when the field's trimmed value is empty — on an
idle state whose name field is empty, the fired debounce callback
validates the name field and surfaces its required-error. -/
theorem C9_counterexample :
    (jsTrim (({ AppForm.aIdleValid with
        vals := Function.update AppForm.aValidVals AppForm.AField.name "" }).vals
          AppForm.AField.name)).isEmpty = true
  ∧ ({ AppForm.aIdleValid with
        vals := Function.update AppForm.aValidVals AppForm.AField.name "" }).errors
          AppForm.AField.name = none
  ∧ ((AppForm.debouncedCallback
        { AppForm.aIdleValid with
          vals := Function.update AppForm.aValidVals AppForm.AField.name "" }
        AppForm.AField.name).2.errors AppForm.AField.name) = some "Name is required"
  ∧ ((AppForm.debouncedCallback
        { AppForm.aIdleValid with
          vals := Function.update AppForm.aValidVals AppForm.AField.name "" }
        AppForm.AField.name).2.ui AppForm.AField.name).clsError = true := by
  decide

/-- Witness for C9: three inputs 0, 300, 450 all within 500 ms of each
other fire exactly one callback, at 950; an email field emptied to
whitespace is not revalidated by the fired callback. -/
theorem C9_witness :
    firedCallbacks [0, 300, 450] = [950]
  ∧ (ContactForm.debounceCallback
      { ContactForm.initState with
        vals := Function.update ContactForm.initState.vals
                  ContactForm.FieldName.email (ContactForm.FieldValue.text "  ") }
      ContactForm.FieldName.email).1 = false :=
  ⟨(C9_debounce_single_validation.1 0 [300, 450]
      (List.chain'_cons.mpr ⟨⟨by omega, by omega⟩,
        List.chain'_cons.mpr ⟨⟨by omega, by omega⟩,
          List.chain'_singleton 450⟩⟩)).trans (by decide),
    ((C9_debounce_single_validation.2.1
      { ContactForm.initState with
        vals := Function.update ContactForm.initState.vals
                  ContactForm.FieldName.email (ContactForm.FieldValue.text "  ") }
      "  " (by decide)).1).trans (by decide)⟩

namespace ContactForm

theorem validateAllFields_state (s : CFState) :
    ((validateAllFields s).2).state = s.state := by
  rw [validateAllFields_eq_foldl]
  exact (foldl_validate_spec governedFields true s).2.2.1

theorem submitBegin_state (t : TState) :
    ((submitBegin t).1).state = FormState.submitting := rfl

theorem submitBegin_log (t : TState) :
    (submitBegin t).2 = t.2 ++ [(t.1.state, FormState.submitting)] := rfl

theorem submitResume_state_cases (t : TState) (o : Outcome) :
    ((submitResume t o).1).state = FormState.idle
    ∨ ((submitResume t o).1).state = FormState.error := by
  rcases o with ⟨succ, err⟩ | _
  · cases succ
    · exact Or.inr rfl
    · exact Or.inl rfl
  · exact Or.inr rfl

theorem submitResume_log_success (t : TState) (r : APIResponse)
    (h : r.success = true) :
    (submitResume t (.resolved r)).2
      = t.2 ++ [(t.1.state, FormState.success),
                (FormState.success, FormState.idle)] := by
  rcases r with ⟨succ, err⟩
  cases succ
  · exact absurd h (by simp)
  · show (t.2 ++ [(t.1.state, FormState.success)])
        ++ [(FormState.success, FormState.idle)] = _
    rw [List.append_assoc]
    rfl

theorem submitResume_log_failure (t : TState) (r : APIResponse)
    (h : r.success = false) :
    (submitResume t (.resolved r)).2 = t.2 ++ [(t.1.state, FormState.error)] := by
  rcases r with ⟨succ, err⟩
  cases succ
  · rfl
  · exact absurd h (by simp)

theorem submitResume_log_rejected (t : TState) :
    (submitResume t .rejected).2 = t.2 ++ [(t.1.state, FormState.error)] := rfl

theorem inputEvent_state (s : CFState) (f : FieldName) (v : FieldValue) :
    (inputEvent s f v).state = s.state := rfl

theorem stepM_submit_guard (m : Machine) (h : m.cf.state = FormState.submitting) :
    stepM m .submit = (m, []) := by
  simp [stepM, h]

theorem stepM_submit_invalid (m : Machine)
    (hg : ¬ m.cf.state = FormState.submitting)
    (hv : (validateAllFields m.cf).1 = false) :
    stepM m .submit = ({ m with cf := (validateAllFields m.cf).2 }, []) := by
  simp [stepM, hg, hv]

theorem stepM_submit_valid (m : Machine)
    (hg : ¬ m.cf.state = FormState.submitting)
    (hv : (validateAllFields m.cf).1 = true) :
    stepM m .submit
      = ({ cf := (submitBegin ((validateAllFields m.cf).2, [])).1, pending := true },
         (submitBegin ((validateAllFields m.cf).2, [])).2) := by
  simp [stepM, hg, hv]

theorem stepM_apiSettle_pending (m : Machine) (o : Outcome)
    (hp : m.pending = true) :
    stepM m (.apiSettle o)
      = ({ cf := (submitResume (m.cf, []) o).1, pending := false },
         (submitResume (m.cf, []) o).2) := by
  simp [stepM, hp]

theorem stepM_apiSettle_rest (m : Machine) (o : Outcome)
    (hp : m.pending = false) :
    stepM m (.apiSettle o) = (m, []) := by
  simp [stepM, hp]

theorem machineInv_step (m : Machine) (e : Ev) (hm : MachineInv m) :
    MachineInv (stepM m e).1 := by
  cases e with
  | submit =>
    by_cases hg : m.cf.state = FormState.submitting
    · rw [stepM_submit_guard m hg]
      exact hm
    · cases hv : (validateAllFields m.cf).1
      · rw [stepM_submit_invalid m hg hv]
        refine ⟨fun hp => ?_, fun hp => ?_⟩
        · show ((validateAllFields m.cf).2).state = FormState.submitting
          rw [validateAllFields_state]
          exact hm.1 hp
        · show ((validateAllFields m.cf).2).state = FormState.idle
            ∨ ((validateAllFields m.cf).2).state = FormState.error
          rw [validateAllFields_state]
          exact hm.2 hp
      · rw [stepM_submit_valid m hg hv]
        exact ⟨fun _ => rfl, fun hp => by simp at hp⟩
  | apiSettle o =>
    cases hp : m.pending
    · rw [stepM_apiSettle_rest m o hp]
      exact hm
    · rw [stepM_apiSettle_pending m o hp]
      exact ⟨fun hc => by simp at hc, fun _ => submitResume_state_cases _ o⟩
  | blurField f =>
    exact ⟨fun hp => by
        show ((validateField m.cf f).2).state = _
        rw [validateField_state]; exact hm.1 hp,
      fun hp => by
        show ((validateField m.cf f).2).state = _ ∨ ((validateField m.cf f).2).state = _
        rw [validateField_state]; exact hm.2 hp⟩
  | inputField f v =>
    exact ⟨fun hp => by
        show (inputEvent m.cf f v).state = _
        rw [inputEvent_state]; exact hm.1 hp,
      fun hp => by
        show (inputEvent m.cf f v).state = _ ∨ (inputEvent m.cf f v).state = _
        rw [inputEvent_state]; exact hm.2 hp⟩

theorem machineInv_reachable (m : Machine) (h : Reachable m) : MachineInv m := by
  induction h with
  | init =>
    exact ⟨fun hp => by simp [initMachine] at hp, fun _ => Or.inl rfl⟩
  | step m e _ ih => exact machineInv_step m e ih

theorem reachable_runM (evs : List Ev) (m : Machine) (h : Reachable m) :
    Reachable (runM m evs).1 := by
  induction evs generalizing m with
  | nil => exact h
  | cons e es ih => exact ih (stepM m e).1 (Reachable.step m e h)

end ContactForm

namespace ContactForm

theorem stepM_log_allowed (m : Machine) (hm : MachineInv m) (e : Ev) :
    ∀ p ∈ (stepM m e).2, p ∈ codeTransitions := by
  cases e with
  | submit =>
    by_cases hg : m.cf.state = FormState.submitting
    · rw [stepM_submit_guard m hg]
      intro p hp
      simp at hp
    · cases hv : (validateAllFields m.cf).1
      · rw [stepM_submit_invalid m hg hv]
        intro p hp
        simp at hp
      · rw [stepM_submit_valid m hg hv]
        intro p hp
        rw [submitBegin_log] at hp
        have hpend : m.pending = false := by
          cases hq : m.pending
          · rfl
          · exact absurd (hm.1 hq) hg
        have hs : (((validateAllFields m.cf).2, ([] : List (FormState × FormState))).1).state
            = m.cf.state := validateAllFields_state m.cf
        rw [hs] at hp
        simp at hp
        subst hp
        rcases hm.2 hpend with hi | he
        · rw [hi]
          decide
        · rw [he]
          decide
  | apiSettle o =>
    cases hq : m.pending
    · rw [stepM_apiSettle_rest m o hq]
      intro p hp
      simp at hp
    · rw [stepM_apiSettle_pending m o hq]
      intro p hp
      have hs : m.cf.state = FormState.submitting := hm.1 hq
      rcases o with ⟨succ, err⟩ | _
      · cases succ
        · rw [submitResume_log_failure (m.cf, []) _ rfl] at hp
          simp at hp
          subst hp
          show ((m.cf, ([] : List (FormState × FormState))).1.state, FormState.error)
            ∈ codeTransitions
          rw [hs]
          decide
        · rw [submitResume_log_success (m.cf, []) _ rfl] at hp
          simp at hp
          rcases hp with hp | hp <;> subst hp
          · show ((m.cf, ([] : List (FormState × FormState))).1.state, FormState.success)
              ∈ codeTransitions
            rw [hs]
            decide
          · decide
      · rw [submitResume_log_rejected (m.cf, [])] at hp
        simp at hp
        subst hp
        show ((m.cf, ([] : List (FormState × FormState))).1.state, FormState.error)
          ∈ codeTransitions
        rw [hs]
        decide
  | blurField f =>
    intro p hp
    simp [stepM] at hp
  | inputField f v =>
    intro p hp
    simp [stepM] at hp

end ContactForm

/-- C3 (amended): the submission state only ever changes along the
transitions Idle→Submitting and Error→Submitting (a new valid submit
attempt — after a failure it leaves Error directly for Submitting, not
through Idle), Submitting→Success and Submitting→Error (the simulated
call settling), and Success→Idle (the immediate post-success reset);
every transition any event sequence logs lies in this set, no state is
terminal in it, and both the success run and the fail-then-resubmit run
realize their transitions concretely. Error→Idle is never taken:
`resetForm` only runs on the success path. -/
theorem C3_state_machine_transitions :
    (∀ (m : ContactForm.Machine) (e : ContactForm.Ev)
       (p : ContactForm.FormState × ContactForm.FormState),
       ContactForm.Reachable m → p ∈ (ContactForm.stepM m e).2 →
       p ∈ ContactForm.codeTransitions)
  ∧ (∀ st, st ∈ ContactForm.specStates →
       ∃ st2, (st, st2) ∈ ContactForm.codeTransitions)
  ∧ (ContactForm.runM ContactForm.initMachine ContactForm.successEvents).2
      = [(ContactForm.FormState.idle, ContactForm.FormState.submitting),
         (ContactForm.FormState.submitting, ContactForm.FormState.success),
         (ContactForm.FormState.success, ContactForm.FormState.idle)]
  ∧ (ContactForm.runM ContactForm.initMachine ContactForm.errorResubmitEvents).2
      = [(ContactForm.FormState.idle, ContactForm.FormState.submitting),
         (ContactForm.FormState.submitting, ContactForm.FormState.error),
         (ContactForm.FormState.error, ContactForm.FormState.submitting)] := by
  refine ⟨fun m e p hr hp =>
      ContactForm.stepM_log_allowed m (ContactForm.machineInv_reachable m hr) e p hp,
    ?_, by decide, by decide⟩
  intro st hst
  fin_cases hst
  · exact ⟨ContactForm.FormState.submitting, by decide⟩
  · exact ⟨ContactForm.FormState.success, by decide⟩
  · exact ⟨ContactForm.FormState.idle, by decide⟩
  · exact ⟨ContactForm.FormState.submitting, by decide⟩

/-- Counterexample to C3 as stated: the event sequence fill–submit–fail–
resubmit takes the transition Error→Submitting, which is not among the
five transitions the claim allows. -/
theorem C3_counterexample :
    (ContactForm.FormState.error, ContactForm.FormState.submitting)
      ∈ (ContactForm.runM ContactForm.initMachine ContactForm.errorResubmitEvents).2
  ∧ (ContactForm.FormState.error, ContactForm.FormState.submitting)
      ∉ ContactForm.specTransitions := by
  decide

/-- Witness for C3: applying the amended theorem to the concrete reachable
machine obtained by filling the form validly, at the submit event. -/
theorem C3_witness :
    (ContactForm.FormState.idle, ContactForm.FormState.submitting)
      ∈ ContactForm.codeTransitions :=
  C3_state_machine_transitions.1
    (ContactForm.runM ContactForm.initMachine ContactForm.fillEvents).1
    ContactForm.Ev.submit
    (ContactForm.FormState.idle, ContactForm.FormState.submitting)
    (ContactForm.reachable_runM ContactForm.fillEvents ContactForm.initMachine
      ContactForm.Reachable.init)
    (by decide)
